import Mathlib

/-!
Shallow embedding of the M5 RF suite core (workflow engine and safety
policy) for checking the natural-language specification against the code.

Sources embedded:
  * `src/src/safety_module.cpp` / `src/include/safety_module.h`
  * `src/src/rf_test_workflow.cpp` / `src/include/rf_test_workflow.h`
  * `src/include/config.h` (constants)

Modelling conventions:
  * 32-bit unsigned machine integers become `Nat` with explicit wraparound
    (`u32sub`, `% U32MOD`) where the C++ arithmetic can wrap.
  * `float`/`double` quantities (frequencies, average pulse durations,
    RSSI statistics) become `Rat`; the comparisons the code performs on
    them are exact at the magnitudes involved.
  * Hardware, wall-clock time and the user-input port are external
    collaborators (out of scope per the spec); they enter as explicit
    parameters: `now` values for each `millis()` reading, a list of
    pending radio signals, a per-poll arrival stream for the confirmation
    gate, and a fuel bound for the gate's bounded busy-poll loop.
-/

/-- 2^32, the modulus of the `uint32_t` / `unsigned long` arithmetic. -/
def U32MOD : Nat := 4294967296

/-- Wrapping 32-bit subtraction `a - b`, as C computes it on `uint32_t`
(both arguments reduced mod 2^32). -/
def u32sub (a b : Nat) : Nat := (a % U32MOD + U32MOD - b % U32MOD) % U32MOD

-- ============================================================================
-- Safety module (src/src/safety_module.cpp)
-- ============================================================================

/-- `enum TransmitPermission` from `safety_module.h`. -/
inductive TransmitPermission
  | PERMIT_ALLOWED
  | PERMIT_DENIED_NO_CONFIRMATION
  | PERMIT_DENIED_BLACKLIST
  | PERMIT_DENIED_RATE_LIMIT
  | PERMIT_DENIED_POLICY
  | PERMIT_DENIED_TIMEOUT
  deriving DecidableEq, Repr

/-- `struct TransmitRequest` from `safety_module.h`. -/
structure TransmitRequest where
  frequency : Rat
  duration : Nat
  timestamp : Nat
  confirmed : Bool
  reason : String
  deriving DecidableEq, Repr

/-- `struct TransmitLog` from `safety_module.h`. -/
structure TransmitLog where
  timestamp : Nat
  frequency : Rat
  duration : Nat
  wasAllowed : Bool
  reason : TransmitPermission
  details : String
  deriving DecidableEq, Repr

/-- Mutable state of `class SafetyModule` (`safety_module.h`, private
section). The `pendingRequest` member is omitted: none of the embedded
operations below reads it. -/
structure SafetyModule where
  requireConfirmation : Bool
  transmitTimeout : Nat
  maxTransmitDuration : Nat
  confirmationPending : Bool
  confirmationRequestTime : Nat
  maxTransmitsPerMinute : Int
  recentTransmits : List Nat
  blacklistedFrequencies : List Rat
  auditLog : List TransmitLog
  lastTransmitTime : Nat
  deriving Repr

/-- `SafetyModule::SafetyModule()` followed by `begin()` with
`FREQ_BLACKLIST_ENABLED` false (config.h): the blacklist stays empty.
`REQUIRE_USER_CONFIRMATION = true`, `TRANSMIT_TIMEOUT = 10000`,
`MAX_TRANSMIT_DURATION = 5000`, default rate limit 10. -/
def SafetyModule.start : SafetyModule where
  requireConfirmation := true
  transmitTimeout := 10000
  maxTransmitDuration := 5000
  confirmationPending := false
  confirmationRequestTime := 0
  maxTransmitsPerMinute := 10
  recentTransmits := []
  blacklistedFrequencies := []
  auditLog := []
  lastTransmitTime := 0

/-- `SafetyModule::checkTimeout()`. `now` is the value `millis()` returns
at the call. Returns the boolean result and the updated module state. -/
def SafetyModule.checkTimeout (s : SafetyModule) (now : Nat) :
    Bool × SafetyModule :=
  if s.confirmationPending && decide (u32sub now s.confirmationRequestTime > s.transmitTimeout) then
    (true, { s with confirmationPending := false })
  else
    (false, s)

/-- `SafetyModule::isFrequencyAllowed(float)`: the frequency is allowed
iff it is not within 0.1 MHz of any blacklisted entry. -/
def SafetyModule.isFrequencyAllowed (s : SafetyModule) (f : Rat) : Bool :=
  s.blacklistedFrequencies.all (fun b => !decide (|f - b| < 1/10))

/-- `SafetyModule::cleanupOldTransmits()`: prunes every window timestamp
`t` with `t < millis() - 60000`, the cutoff computed in wrapping
`unsigned long` arithmetic, the comparison a plain unsigned `<`. -/
def SafetyModule.cleanupOldTransmits (s : SafetyModule) (now : Nat) :
    SafetyModule :=
  { s with recentTransmits :=
      s.recentTransmits.filter (fun t => !decide (t < u32sub now 60000)) }

/-- `SafetyModule::isRateLimitOK()`: prune, then compare the remaining
count strictly against `maxTransmitsPerMinute`. -/
def SafetyModule.isRateLimitOK (s : SafetyModule) (now : Nat) :
    Bool × SafetyModule :=
  let s' := s.cleanupOldTransmits now
  (decide ((s'.recentTransmits.length : Int) < s'.maxTransmitsPerMinute), s')

/-- `SafetyModule::getRecentTransmitCount()`. -/
def SafetyModule.getRecentTransmitCount (s : SafetyModule) (now : Nat) :
    Nat × SafetyModule :=
  let s' := s.cleanupOldTransmits now
  (s'.recentTransmits.length, s')

/-- `SafetyModule::checkTransmitPolicy(const TransmitRequest&)`:
timeout, then missing confirmation, then blacklist, then rate limit,
then duration policy, short-circuiting at the first failure. -/
def SafetyModule.checkTransmitPolicy (s : SafetyModule) (now : Nat)
    (request : TransmitRequest) : TransmitPermission × SafetyModule :=
  match s.checkTimeout now with
  | (true, s1) => (.PERMIT_DENIED_TIMEOUT, s1)
  | (false, s1) =>
    if s1.requireConfirmation && !request.confirmed then
      (.PERMIT_DENIED_NO_CONFIRMATION, s1)
    else if !(s1.isFrequencyAllowed request.frequency) then
      (.PERMIT_DENIED_BLACKLIST, s1)
    else
      match s1.isRateLimitOK now with
      | (false, s2) => (.PERMIT_DENIED_RATE_LIMIT, s2)
      | (true, s2) =>
        if decide (request.duration > s2.maxTransmitDuration) then
          (.PERMIT_DENIED_POLICY, s2)
        else
          (.PERMIT_ALLOWED, s2)

/-- `SafetyModule::logTransmitAttempt`: append an audit record; on an
allowed attempt also record the timestamp in the rate window and update
`lastTransmitTime`; evict the oldest audit entry past 100. -/
def SafetyModule.logTransmitAttempt (s : SafetyModule) (now : Nat)
    (request : TransmitRequest) (allowed : Bool)
    (reason : TransmitPermission) : SafetyModule :=
  let entry : TransmitLog :=
    { timestamp := now, frequency := request.frequency,
      duration := request.duration, wasAllowed := allowed,
      reason := reason, details := request.reason.take 127 }
  let s1 := { s with auditLog := s.auditLog ++ [entry] }
  let s2 :=
    if allowed then
      { s1 with recentTransmits := s1.recentTransmits ++ [now],
                lastTransmitTime := now }
    else s1
  if s2.auditLog.length > 100 then
    { s2 with auditLog := s2.auditLog.drop 1 }
  else s2

/-- `SafetyModule::addFrequencyToBlacklist(float)`: refuse (returning
false, state unchanged) when the frequency is already blacklisted within
0.1 MHz, otherwise append it and return true. -/
def SafetyModule.addFrequencyToBlacklist (s : SafetyModule) (f : Rat) :
    Bool × SafetyModule :=
  if !(s.isFrequencyAllowed f) then
    (false, s)
  else
    (true, { s with blacklistedFrequencies := s.blacklistedFrequencies ++ [f] })

-- ============================================================================
-- Spec-side decision cascade for the transmit policy (spec §4.5)
-- ============================================================================

/-- Decision cascade written from the spec's words for §4.5: evaluation
order Timeout, then NoConfirmation, then Blacklist, then RateLimit, then
Policy(duration); the first failing check names the denial. Stated over
the same state threading the code performs, for comparison with
`SafetyModule.checkTransmitPolicy`. -/
def specPolicyDecision (s : SafetyModule) (now : Nat)
    (request : TransmitRequest) : TransmitPermission :=
  let s1 := (s.checkTimeout now).2
  if (s.checkTimeout now).1 then .PERMIT_DENIED_TIMEOUT
  else if s1.requireConfirmation && !request.confirmed then .PERMIT_DENIED_NO_CONFIRMATION
  else if !(s1.isFrequencyAllowed request.frequency) then .PERMIT_DENIED_BLACKLIST
  else if !(s1.isRateLimitOK now).1 then .PERMIT_DENIED_RATE_LIMIT
  else if decide (request.duration > (s1.isRateLimitOK now).2.maxTransmitDuration) then .PERMIT_DENIED_POLICY
  else .PERMIT_ALLOWED

-- ============================================================================
-- Workflow data model (src/include/rf_test_workflow.h)
-- ============================================================================

/-- `enum WorkflowState`. -/
inductive WorkflowState
  | WF_IDLE
  | WF_INIT
  | WF_LISTENING
  | WF_ANALYZING
  | WF_READY
  | WF_TX_GATED
  | WF_TRANSMIT
  | WF_CLEANUP
  deriving DecidableEq, Repr

/-- `enum RFBand`. -/
inductive RFBand
  | BAND_433MHZ
  | BAND_24GHZ
  deriving DecidableEq, Repr

/-- `enum WorkflowError`. -/
inductive WorkflowError
  | WF_ERROR_NONE
  | WF_ERROR_INIT_FAILED
  | WF_ERROR_HARDWARE_FAILURE
  | WF_ERROR_BUFFER_OVERFLOW
  | WF_ERROR_TIMEOUT
  | WF_ERROR_INVALID_SIGNAL
  | WF_ERROR_TRANSMISSION_FAILED
  | WF_ERROR_GATE_DENIED
  deriving DecidableEq, Repr

/-- `struct WorkflowConfig` with its constructor defaults
(`rf_test_workflow.h`, `DRY_RUN_MODE` is referenced there; the spec's
configuration table gives its default, false). -/
structure WorkflowConfig where
  band : RFBand := .BAND_433MHZ
  initTimeout : Nat := 5000
  listenMinTime : Nat := 1000
  listenMaxTime : Nat := 60000
  analyzeTimeout : Nat := 10000
  readyTimeout : Nat := 120000
  txGateTimeout : Nat := 10000
  transmitMaxDuration : Nat := 5000
  cleanupTimeout : Nat := 5000
  bufferSize : Nat := 100
  dryRunMode : Bool := false
  deriving DecidableEq, Repr

/-- `struct CapturedSignalData`. The owned `pulseTimes` buffer becomes
`Option (List Nat)` (`none` is the null pointer); `pulseCount` stays a
separate field as in the struct. -/
structure CapturedSignalData where
  captureTime : Nat := 0
  frequency : Rat := 0
  rssi : Int := 0
  rawData : List Nat := List.replicate 32 0
  dataLength : Nat := 0
  pulseTimes : Option (List Nat) := none
  pulseCount : Nat := 0
  protocol : String := ""
  deviceType : String := ""
  isValid : Bool := false
  deriving DecidableEq, Repr

instance : Inhabited CapturedSignalData := ⟨{}⟩

/-- The pulse durations the C++ loops `for (i = 0; i < pulseCount; ...)
pulseTimes[i]` actually visit: nothing when the pointer is null,
otherwise the first `pulseCount` stored elements. -/
def CapturedSignalData.pulses (s : CapturedSignalData) : List Nat :=
  match s.pulseTimes with
  | none => []
  | some l => l.take s.pulseCount

/-- `struct AnalysisResult` with its constructor defaults. -/
structure AnalysisResult where
  signalCount : Nat := 0
  validSignalCount : Nat := 0
  uniquePatterns : Nat := 0
  avgRSSI : Rat := 0
  minRSSI : Rat := 0
  maxRSSI : Rat := 0
  captureDurationMs : Nat := 0
  analysisTime : Nat := 0
  complete : Bool := false
  summary : String := ""
  deriving DecidableEq, Repr

/-- `struct StateTransitionLog`. -/
structure StateTransitionLog where
  fromState : WorkflowState
  toState : WorkflowState
  timestamp : Nat
  reason : String
  deriving DecidableEq, Repr

/-- Modelled from the spec: the deterministic-logging declarations
(`DeterministicEventType`, `DeterministicLogEntry`,
`DETERMINISTIC_LOG_MAX_ENTRIES`, `ENABLE_DETERMINISTIC_LOGGING`) live in
a near-duplicate header that is absent from this tree; only
`rf_test_workflow.cpp` uses them. The event kinds follow spec §3
("Audit Event") and match `getEventTypeName` in the .cpp. -/
inductive DeterministicEventType
  | DET_EVENT_STATE_ENTRY
  | DET_EVENT_STATE_EXIT
  | DET_EVENT_TRANSITION
  | DET_EVENT_ERROR
  | DET_EVENT_USER_ACTION
  | DET_EVENT_TIMEOUT
  deriving DecidableEq, Repr

/-- Modelled from the spec: audit-log capacity, spec §4.6 "Bounded to
`N_MAX` entries (default 500; FIFO eviction)". -/
def DETERMINISTIC_LOG_MAX_ENTRIES : Nat := 500

/-- Modelled from the spec: deterministic logging is a permanent feature
(spec §9, open question: the canonical version includes it), so the
constructor default for `deterministicLoggingEnabled` is true. -/
def ENABLE_DETERMINISTIC_LOGGING : Bool := true

/-- Modelled from the spec: one audit event, spec §3 "Audit Event" —
sequence number, paired ms+µs timestamps, kind, current and previous
state, name (≤31 chars), reason (≤63), data (≤63); field layout matches
every use in `rf_test_workflow.cpp`. -/
structure DeterministicLogEntry where
  sequenceNumber : Nat
  timestampMs : Nat
  timestampUs : Nat
  eventType : DeterministicEventType
  state : WorkflowState
  prevState : WorkflowState
  event : String
  reason : String
  data : String
  deriving DecidableEq, Repr

/-- Mutable state of `class RFTestWorkflow` (header member list plus the
deterministic-logging members the .cpp uses). The two radio-module
pointers become presence flags (the drivers are external collaborators);
they are carried in the tick environment instead. -/
structure RFTestWorkflow where
  config : WorkflowConfig := {}
  currentState : WorkflowState := .WF_IDLE
  previousState : WorkflowState := .WF_IDLE
  stateEntryTime : Nat := 0
  running : Bool := false
  emergencyStop : Bool := false
  captureBuffer : List CapturedSignalData := []
  analysisResult : AnalysisResult := {}
  selectedSignalIndex : Int := -1
  userConfirmed : Bool := false
  userCanceled : Bool := false
  transmissionAttempts : Nat := 0
  lastError : WorkflowError := .WF_ERROR_NONE
  errorCount : Nat := 0
  errorLog : List String := []
  transitionLog : List StateTransitionLog := []
  deterministicLoggingEnabled : Bool := ENABLE_DETERMINISTIC_LOGGING
  deterministicLogSequence : Nat := 0
  deterministicLog : List DeterministicLogEntry := []
  workflowStartTime : Nat := 0
  deriving Repr

/-- `RFTestWorkflow::RFTestWorkflow()`: the freshly constructed workflow
(all defaults above are the constructor's initializer list). -/
def initialWorkflow : RFTestWorkflow := {}

/-- `RFTestWorkflow::getStateName`. -/
def getStateName : WorkflowState → String
  | .WF_IDLE => "IDLE"
  | .WF_INIT => "INIT"
  | .WF_LISTENING => "LISTENING"
  | .WF_ANALYZING => "ANALYZING"
  | .WF_READY => "READY"
  | .WF_TX_GATED => "TX_GATED"
  | .WF_TRANSMIT => "TRANSMIT"
  | .WF_CLEANUP => "CLEANUP"

/-- `RFTestWorkflow::getErrorString`. -/
def getErrorString : WorkflowError → String
  | .WF_ERROR_NONE => "No error"
  | .WF_ERROR_INIT_FAILED => "Initialization failed"
  | .WF_ERROR_HARDWARE_FAILURE => "Hardware failure"
  | .WF_ERROR_BUFFER_OVERFLOW => "Buffer overflow"
  | .WF_ERROR_TIMEOUT => "Timeout"
  | .WF_ERROR_INVALID_SIGNAL => "Invalid signal"
  | .WF_ERROR_TRANSMISSION_FAILED => "Transmission failed"
  | .WF_ERROR_GATE_DENIED => "Transmission gate denied"

/-- `RFTestWorkflow::getEventTypeName`. -/
def getEventTypeName : DeterministicEventType → String
  | .DET_EVENT_STATE_ENTRY => "STATE_ENTRY"
  | .DET_EVENT_STATE_EXIT => "STATE_EXIT"
  | .DET_EVENT_TRANSITION => "TRANSITION"
  | .DET_EVENT_ERROR => "ERROR"
  | .DET_EVENT_USER_ACTION => "USER_ACTION"
  | .DET_EVENT_TIMEOUT => "TIMEOUT"

/-- The log entry `RFTestWorkflow::logDeterministicEvent` constructs:
sequence number from the counter, the supplied timestamps, current and
previous state at the call, and the three strings truncated by `strncpy`
to the capacities spec §3 gives (31, 63, 63). -/
def mkDetEntry (w : RFTestWorkflow) (nowMs nowUs : Nat)
    (eventType : DeterministicEventType) (event reason data : String) :
    DeterministicLogEntry :=
  { sequenceNumber := w.deterministicLogSequence
    timestampMs := nowMs
    timestampUs := nowUs
    eventType := eventType
    state := w.currentState
    prevState := w.previousState
    event := event.take 31
    reason := reason.take 63
    data := data.take 63 }

/-- The FIFO eviction at the top of
`RFTestWorkflow::logDeterministicEvent`: drop the oldest entry when the
log is at capacity. -/
def evictIfFull (log : List DeterministicLogEntry) : List DeterministicLogEntry :=
  if log.length ≥ DETERMINISTIC_LOG_MAX_ENTRIES then log.drop 1 else log

/-- `RFTestWorkflow::logDeterministicEvent`: skip entirely when logging
is disabled; evict the oldest entry when at capacity; append the new
entry and advance the sequence counter. -/
def logDeterministicEvent (w : RFTestWorkflow) (nowMs nowUs : Nat)
    (eventType : DeterministicEventType) (event reason data : String) :
    RFTestWorkflow :=
  if !w.deterministicLoggingEnabled then w
  else
    { w with
        deterministicLog := evictIfFull w.deterministicLog ++
          [mkDetEntry w nowMs nowUs eventType event reason data]
        deterministicLogSequence := w.deterministicLogSequence + 1 }

/-- `RFTestWorkflow::logStateEntry`. -/
def logStateEntry (w : RFTestWorkflow) (state : WorkflowState)
    (reason : String) (nowMs nowUs : Nat) : RFTestWorkflow :=
  logDeterministicEvent w nowMs nowUs .DET_EVENT_STATE_ENTRY
    ("ENTER_" ++ getStateName state) reason ""

/-- `RFTestWorkflow::logStateExit`. -/
def logStateExit (w : RFTestWorkflow) (state : WorkflowState)
    (reason : String) (nowMs nowUs : Nat) : RFTestWorkflow :=
  logDeterministicEvent w nowMs nowUs .DET_EVENT_STATE_EXIT
    ("EXIT_" ++ getStateName state) reason ""

/-- `RFTestWorkflow::logTransition`: append to the transition log (the
reason truncated by `strncpy` into `char reason[64]`), then emit the
TRANSITION deterministic event with `from=... to=...` in its data. -/
def logTransition (w : RFTestWorkflow) (fromState toState : WorkflowState)
    (reason : String) (nowMs nowUs : Nat) : RFTestWorkflow :=
  let w1 := { w with transitionLog := w.transitionLog ++
      [{ fromState := fromState, toState := toState, timestamp := nowMs,
         reason := reason.take 63 }] }
  logDeterministicEvent w1 nowMs nowUs .DET_EVENT_TRANSITION "TRANSITION"
    reason ("from=" ++ getStateName fromState ++ " to=" ++ getStateName toState)

/-- `RFTestWorkflow::transitionToState`: EXIT event for the old state,
transition record and TRANSITION event, state update, ENTRY event for
the new state. -/
def transitionToState (w : RFTestWorkflow) (newState : WorkflowState)
    (reason : String) (nowMs nowUs : Nat) : RFTestWorkflow :=
  let w1 := logStateExit w w.currentState reason nowMs nowUs
  let w2 := logTransition w1 w1.currentState newState reason nowMs nowUs
  let w3 := { w2 with previousState := w2.currentState,
                      currentState := newState,
                      stateEntryTime := nowMs }
  logStateEntry w3 newState reason nowMs nowUs

/-- `RFTestWorkflow::logError`: set `lastError`, bump the error count,
append the message to the error log, emit an ERROR deterministic
event. -/
def logError (w : RFTestWorkflow) (error : WorkflowError) (message : String)
    (nowMs nowUs : Nat) : RFTestWorkflow :=
  let w1 := { w with lastError := error, errorCount := w.errorCount + 1,
                     errorLog := w.errorLog ++ [message] }
  logDeterministicEvent w1 nowMs nowUs .DET_EVENT_ERROR "ERROR" message
    (getErrorString error)

-- ============================================================================
-- Gate 2: user confirmation (RFTestWorkflow::checkConfirmationGate)
-- ============================================================================

/-- `RFTestWorkflow::checkConfirmationGate`, its busy-poll loop made
structural. One recursion step is one loop iteration: test the
`userConfirmed` / `userCanceled` flags, then `delay(10)` during which
the user-input port may set either flag (`arrivals k` says which flags
get set during the k-th delay; `confirmTransmission` /
`cancelTransmission` may each fire, the flags are or-ed in). `fuel` is
the number of polls the `while (millis() - startTime) < txGateTimeout`
loop admits; exhausting it is the confirmation timeout. Result:
(returned Bool, `userConfirmed` after, `userCanceled` after). -/
def confGate : Nat → Bool → Bool → (Nat → Bool × Bool) → Bool × Bool × Bool
  | 0, uc, ucan, _ => (false, uc, ucan)
  | fuel + 1, uc, ucan, arrivals =>
    if uc then (true, false, ucan)
    else if ucan then (false, uc, false)
    else confGate fuel (uc || (arrivals 0).1) (ucan || (arrivals 0).2)
           (fun k => arrivals (k + 1))

/-- The flag pair (`userConfirmed`, `userCanceled`) the gate's loop
observes at its k-th poll, given the initial flags and the arrival
stream: the or-accumulation of all arrivals before poll k. -/
def confFlags (uc ucan : Bool) (arrivals : Nat → Bool × Bool) : Nat → Bool × Bool
  | 0 => (uc, ucan)
  | k + 1 =>
    ((confFlags uc ucan arrivals k).1 || (arrivals k).1,
     (confFlags uc ucan arrivals k).2 || (arrivals k).2)

-- ============================================================================
-- Transmission gates 1, 3, 4 (rf_test_workflow.cpp)
-- ============================================================================

/-- The `FREQ_BLACKLIST` array of config.h: declared empty (its comment
only suggests example entries). -/
def FREQ_BLACKLIST : List Rat := []

/-- `RFTestWorkflow::isFrequencyBlacklisted`: scan `FREQ_BLACKLIST` for
an entry within 0.1 MHz. -/
def isFrequencyBlacklisted (f : Rat) : Bool :=
  FREQ_BLACKLIST.any (fun b => decide (|f - b| < 1/10))

/-- The signal the gate code reads through
`captureBuffer[selectedSignalIndex]` (the index is range-checked by
`processTxGatedState` before any gate runs). -/
def selectedSignal (w : RFTestWorkflow) : CapturedSignalData :=
  w.captureBuffer.getD w.selectedSignalIndex.toNat default

/-- `RFTestWorkflow::estimateTransmissionDuration`: for 433 MHz, total
pulse time (32-bit accumulation) times 10 repeats, µs→ms; for 2.4 GHz a
constant 10 ms. -/
def estimateTransmissionDuration (w : RFTestWorkflow)
    (signal : CapturedSignalData) : Nat :=
  match w.config.band with
  | .BAND_433MHZ => (signal.pulses.sum % U32MOD) * 10 % U32MOD / 1000
  | .BAND_24GHZ => 10

/-- `RFTestWorkflow::checkPolicyGate`: blacklist, then estimated
duration against `transmitMaxDuration`, then the validity bit. -/
def checkPolicyGate (w : RFTestWorkflow) : Bool :=
  let signal := selectedSignal w
  if isFrequencyBlacklisted signal.frequency then false
  else if decide (estimateTransmissionDuration w signal > w.config.transmitMaxDuration) then false
  else if !signal.isValid then false
  else true

/-- `RFTestWorkflow::check433MHzGate`: when the pulse buffer is present,
every visited pulse duration must lie in [100, 10000] µs. -/
def check433MHzGate (w : RFTestWorkflow) : Bool :=
  let signal := selectedSignal w
  match signal.pulseTimes with
  | none => true
  | some _ => signal.pulses.all (fun p => !(decide (p < 100) || decide (p > 10000)))

/-- `RFTestWorkflow::wasAddressObserved`: `strcmp` scan of the capture
buffer's protocol strings. -/
def wasAddressObserved (w : RFTestWorkflow) (address : String) : Bool :=
  w.captureBuffer.any (fun signal => decide (signal.protocol = address))

/-- `RFTestWorkflow::check24GHzGate`: packet length in [1, 32], then the
binding check on the selected signal's protocol string. -/
def check24GHzGate (w : RFTestWorkflow) : Bool :=
  let signal := selectedSignal w
  if decide (signal.dataLength < 1) || decide (signal.dataLength > 32) then false
  else if !(wasAddressObserved w signal.protocol) then false
  else true

/-- Gate 4 dispatch on the configured band, as written inline in
`processTxGatedState` (`gatePass`). -/
def bandGate (w : RFTestWorkflow) : Bool :=
  match w.config.band with
  | .BAND_433MHZ => check433MHzGate w
  | .BAND_24GHZ => check24GHzGate w

-- ============================================================================
-- Capture and conversion (rf_test_workflow.cpp, rf433_module.h)
-- ============================================================================

/-- `struct RF433Signal` from `rf433_module.h`. The classified `type`
field is omitted: the embedded workflow paths never read or set it. -/
structure RF433Signal where
  value : Nat
  bitLength : Nat
  protocol : Nat
  pulseLength : Nat
  timestamp : Nat
  rssi : Int
  description : String
  isValid : Bool
  deriving DecidableEq, Repr

/-- `convertRF433Signal` (global helper in rf_test_workflow.cpp):
timestamp scaled to µs in 32-bit arithmetic, fixed 433.92 MHz, value
split into four raw bytes, one pulse slot per bit all at `pulseLength`
(16-bit truncation on the stores), protocol rendered as `RCSwitch-N`.
The allocation-success branch is taken (the failure branch nulls the
buffer). -/
def convertRF433Signal (src : RF433Signal) : CapturedSignalData :=
  let pulseCount := src.bitLength % 65536
  { captureTime := src.timestamp * 1000 % U32MOD
    frequency := 43392/100
    rssi := src.rssi
    rawData := [src.value >>> 24 % 256, src.value >>> 16 % 256,
                src.value >>> 8 % 256, src.value % 256] ++ List.replicate 28 0
    dataLength := 4
    pulseTimes := if pulseCount > 0 then
        some (List.replicate pulseCount (src.pulseLength % 65536))
      else none
    pulseCount := pulseCount
    protocol := ("RCSwitch-" ++ toString src.protocol).take 31
    deviceType := src.description.take 31
    isValid := src.isValid }

/-- `convertToCapturedSignal` (global helper in rf_test_workflow.cpp):
rebuild the 32-bit value from the four raw bytes, bit length from the
pulse count, protocol 1, first stored pulse (or 350) as pulse length. -/
def convertToCapturedSignal (src : CapturedSignalData) : RF433Signal :=
  { value := (src.rawData.getD 0 0) <<< 24 ||| (src.rawData.getD 1 0) <<< 16 |||
             (src.rawData.getD 2 0) <<< 8 ||| src.rawData.getD 3 0
    bitLength := src.pulseCount
    protocol := 1
    pulseLength :=
      match src.pulseTimes with
      | some l => if src.pulseCount > 0 then l.getD 0 0 else 350
      | none => 350
    timestamp := src.captureTime / 1000
    rssi := src.rssi
    description := src.deviceType.take 63
    isValid := src.isValid }

/-- `RFTestWorkflow::validateSignal433MHz`: at least
`WORKFLOW_433_MIN_PULSES` (10) pulses, and a present RSSI no weaker than
-100 dBm. -/
def validateSignal433MHz (signal : CapturedSignalData) : Bool :=
  if decide (signal.pulseCount < 10) then false
  else if !decide (signal.rssi = 0) && decide (signal.rssi < -100) then false
  else true

/-- `RFTestWorkflow::capture433MHzSignals`: drain the radio's pending
signals while the capture buffer has room; skip invalid decodes; convert
and validate the rest before appending. -/
def capture433MHzSignals (w : RFTestWorkflow) :
    List RF433Signal → RFTestWorkflow
  | [] => w
  | rfSignal :: rest =>
    if w.captureBuffer.length < w.config.bufferSize then
      if !rfSignal.isValid then capture433MHzSignals w rest
      else
        let captured := convertRF433Signal rfSignal
        if validateSignal433MHz captured then
          capture433MHzSignals
            { w with captureBuffer := w.captureBuffer ++ [captured] } rest
        else
          capture433MHzSignals w rest
    else w

-- ============================================================================
-- Analysis (rf_test_workflow.cpp)
-- ============================================================================

/-- The average pulse duration `avgPulse` computed at the top of
`RFTestWorkflow::classifyDevice433MHz`: mean of the visited pulse
durations when the buffer is present and non-empty, else 0. -/
def avgPulse (signal : CapturedSignalData) : Rat :=
  if signal.pulseCount > 0 && !signal.pulseTimes.isNone then
    (signal.pulses.sum : Rat) / (signal.pulseCount : Rat)
  else 0

/-- `RFTestWorkflow::classifyDevice433MHz`: the four-rule first-match
cascade on average pulse duration and pulse count, writing the label
into `deviceType` (with `strncpy` truncation to 31 chars). -/
def classifyDevice433MHz (signal : CapturedSignalData) : CapturedSignalData :=
  let avg := avgPulse signal
  if decide (avg > 400) && decide (signal.pulseCount ≥ 48) then
    { signal with deviceType := "Garage Door".take 31 }
  else if decide (avg < 350) && decide (signal.pulseCount < 48) then
    { signal with deviceType := "Doorbell".take 31 }
  else if decide (signal.pulseCount ≥ 128) then
    { signal with deviceType := "Car Remote".take 31 }
  else
    { signal with deviceType := "Unknown".take 31 }

/-- Classification cascade written from the spec's words, §4.3: a total
function of the average pulse duration and the pulse count alone,
evaluated in the stated order with first match winning. For comparison
with `classifyDevice433MHz`. -/
def specClassifyLabel (avg : Rat) (n : Nat) : String :=
  if avg > 400 ∧ n ≥ 48 then "Garage Door"
  else if avg < 350 ∧ n < 48 then "Doorbell"
  else if n ≥ 128 then "Car Remote"
  else "Unknown"

/-- `RFTestWorkflow::analyze433MHzSignals`: classify each valid signal
in place and count the valid signals into the analysis result (a
`uint16_t` accumulator). -/
def analyze433MHzSignals (w : RFTestWorkflow) : RFTestWorkflow :=
  { w with
      captureBuffer := w.captureBuffer.map
        (fun s => if s.isValid then classifyDevice433MHz s else s)
      analysisResult := { w.analysisResult with
        validSignalCount := (w.analysisResult.validSignalCount +
          (w.captureBuffer.filter (fun s => s.isValid)).length) % 65536 } }

/-- `RFTestWorkflow::analyze24GHzPackets`: binding detection is a
placeholder; valid packets are counted. -/
def analyze24GHzPackets (w : RFTestWorkflow) : RFTestWorkflow :=
  { w with analysisResult := { w.analysisResult with
      validSignalCount := (w.analysisResult.validSignalCount +
        (w.captureBuffer.filter (fun s => s.isValid)).length) % 65536 } }

/-- The `snprintf` summary of `generateStatistics`. The `%.1f` decimal
rendering of the float average is abstracted by `toString` on the exact
rational; no embedded claim reads this field. -/
def summaryText (signalCount validSignalCount : Nat) (avgRSSI : Rat) : String :=
  (toString signalCount ++ " signals, " ++ toString validSignalCount ++
    " valid, avg RSSI: " ++ toString avgRSSI ++ " dBm").take 255

/-- `RFTestWorkflow::generateStatistics`: RSSI mean/min/max over the
signals with non-zero RSSI (min seeded at 0, max at -999, the mean left
unchanged when no signal qualifies), capture duration from first to last
capture timestamp in 32-bit arithmetic, and the summary string. -/
def generateStatistics (w : RFTestWorkflow) : RFTestWorkflow :=
  if w.captureBuffer.isEmpty then w
  else
    let nz := w.captureBuffer.filter (fun s => !decide (s.rssi = 0))
    let rssiSum : Rat := (nz.map (fun s => (s.rssi : Rat))).sum
    let minR : Rat := (nz.map (fun s => (s.rssi : Rat))).foldl min 0
    let maxR : Rat := (nz.map (fun s => (s.rssi : Rat))).foldl max (-999)
    let avg : Rat :=
      if nz.length > 0 then rssiSum / (nz.length : Rat) else w.analysisResult.avgRSSI
    let dur := u32sub ((w.captureBuffer.getLastD default).captureTime)
                      ((w.captureBuffer.headD default).captureTime) / 1000
    { w with analysisResult := { w.analysisResult with
        minRSSI := minR, maxRSSI := maxR, avgRSSI := avg,
        captureDurationMs := dur,
        summary := summaryText w.analysisResult.signalCount
          w.analysisResult.validSignalCount avg } }

-- ============================================================================
-- State processors and the cooperative tick (rf_test_workflow.cpp)
-- ============================================================================

/-- External collaborators for one tick of the cooperative loop: the
`millis()`/`micros()` readings, the 433 MHz radio's pending signals and
presence, the confirmation-gate poll budget and arrival stream, the
global `Safety` module state, and whether the radio reports emission
success. -/
structure TickEnv where
  nowMs : Nat
  nowUs : Nat
  rxSignals : List RF433Signal
  confirmFuel : Nat
  confirmArrivals : Nat → Bool × Bool
  safety : SafetyModule
  rf433Present : Bool
  rf24Present : Bool
  emitOk : Bool

/-- `RFTestWorkflow::captureSignals`: band dispatch; the 2.4 GHz path is
a placeholder; a missing 433 module makes the capture a no-op. -/
def captureSignals (w : RFTestWorkflow) (env : TickEnv) : RFTestWorkflow :=
  match w.config.band with
  | .BAND_433MHZ =>
    if env.rf433Present then capture433MHzSignals w env.rxSignals else w
  | .BAND_24GHZ => w

/-- `RFTestWorkflow::processInitState`: hardware presence for the
configured band decides success; on failure log the error and go to
CLEANUP, otherwise clear the buffer, zero the analysis result and error
count, and go to LISTENING. -/
def processInitState (w : RFTestWorkflow) (env : TickEnv) : RFTestWorkflow :=
  let success := match w.config.band with
    | .BAND_433MHZ => env.rf433Present
    | .BAND_24GHZ => env.rf24Present
  if !success then
    transitionToState
      (logError w .WF_ERROR_INIT_FAILED "Hardware initialization failed"
        env.nowMs env.nowUs)
      .WF_CLEANUP "Init failed" env.nowMs env.nowUs
  else
    transitionToState
      { w with captureBuffer := [], analysisResult := {}, errorCount := 0 }
      .WF_LISTENING "Init successful" env.nowMs env.nowUs

/-- `RFTestWorkflow::processListeningState`: capture while the minimum
observation time has not elapsed; then trigger analysis at 90% buffer
usage or at the maximum observation time, else keep capturing. -/
def processListeningState (w : RFTestWorkflow) (env : TickEnv) :
    RFTestWorkflow :=
  let elapsed := u32sub env.nowMs w.stateEntryTime
  if decide (elapsed < w.config.listenMinTime) then captureSignals w env
  else if decide ((w.captureBuffer.length : Rat) / (w.config.bufferSize : Rat) ≥ 9/10) then
    transitionToState w .WF_ANALYZING "Buffer full" env.nowMs env.nowUs
  else if decide (elapsed ≥ w.config.listenMaxTime) then
    transitionToState w .WF_ANALYZING "Max time reached" env.nowMs env.nowUs
  else captureSignals w env

/-- `RFTestWorkflow::processAnalyzingState`: an empty buffer goes back
to LISTENING; otherwise record counts and time, run the band's
analysis, generate statistics, mark the result complete, go to READY. -/
def processAnalyzingState (w : RFTestWorkflow) (env : TickEnv) :
    RFTestWorkflow :=
  if w.captureBuffer.isEmpty then
    transitionToState w .WF_LISTENING "No data" env.nowMs env.nowUs
  else
    let w1 := { w with analysisResult := { w.analysisResult with
        signalCount := w.captureBuffer.length % 65536,
        analysisTime := env.nowMs } }
    let w2 := match w1.config.band with
      | .BAND_433MHZ => analyze433MHzSignals w1
      | .BAND_24GHZ => analyze24GHzPackets w1
    let w3 := generateStatistics w2
    let w4 := { w3 with analysisResult := { w3.analysisResult with complete := true } }
    transitionToState w4 .WF_READY "Analysis complete" env.nowMs env.nowUs

/-- `RFTestWorkflow::processReadyState`: user-driven; only the ready
timeout forces CLEANUP. -/
def processReadyState (w : RFTestWorkflow) (env : TickEnv) : RFTestWorkflow :=
  if decide (u32sub env.nowMs w.stateEntryTime ≥ w.config.readyTimeout) then
    transitionToState w .WF_CLEANUP "Inactivity timeout" env.nowMs env.nowUs
  else w

/-- `RFTestWorkflow::processTxGatedState`: count the attempt; too many
attempts or a bad selection return to READY without running gates;
otherwise run gate 1 (policy), gate 2 (confirmation, whose loop updates
the user flags), gate 3 (rate limit via the Safety module), gate 4
(band-specific), in that order, returning to READY on the first failure
and entering TRANSMIT only when all four pass. -/
def processTxGatedState (w : RFTestWorkflow) (env : TickEnv) :
    RFTestWorkflow :=
  let w1 := { w with transmissionAttempts := (w.transmissionAttempts + 1) % 256 }
  if decide (w1.transmissionAttempts > 3) then
    transitionToState w1 .WF_READY "Max attempts" env.nowMs env.nowUs
  else if decide (w1.selectedSignalIndex < 0) ||
          decide ((w1.captureBuffer.length : Int) ≤ w1.selectedSignalIndex) then
    transitionToState w1 .WF_READY "Invalid selection" env.nowMs env.nowUs
  else if !checkPolicyGate w1 then
    transitionToState w1 .WF_READY "Policy denied" env.nowMs env.nowUs
  else
    let cg := confGate env.confirmFuel w1.userConfirmed w1.userCanceled
                env.confirmArrivals
    let w2 := { w1 with userConfirmed := cg.2.1, userCanceled := cg.2.2 }
    if !cg.1 then
      transitionToState w2 .WF_READY "Not confirmed" env.nowMs env.nowUs
    else if !(env.safety.isRateLimitOK env.nowMs).1 then
      transitionToState w2 .WF_READY "Rate limit" env.nowMs env.nowUs
    else if !bandGate w2 then
      transitionToState w2 .WF_READY "Band validation failed" env.nowMs env.nowUs
    else
      transitionToState w2 .WF_TRANSMIT "All gates passed" env.nowMs env.nowUs

/-- `RFTestWorkflow::transmit433MHz`: nothing happens without the
module; otherwise the converted signal goes to the radio's
`transmitSignal` — the emit operation this model records as an action —
and the radio reports success. -/
def transmit433MHz (env : TickEnv) (signal : CapturedSignalData) :
    Bool × List RF433Signal :=
  if !env.rf433Present then (false, [])
  else (env.emitOk, [convertToCapturedSignal signal])

/-- `RFTestWorkflow::transmit24GHz`: missing module or the placeholder
body, either way failure and no emission. -/
def transmit24GHz (env : TickEnv) : Bool × List RF433Signal :=
  if !env.rf24Present then (false, []) else (false, [])

/-- `RFTestWorkflow::processTransmitState`: emit the selected signal for
the configured band, log a failure, and go to CLEANUP either way. The
second component collects the radio emit operations performed. -/
def processTransmitState (w : RFTestWorkflow) (env : TickEnv) :
    RFTestWorkflow × List RF433Signal :=
  let signal := selectedSignal w
  let res := match w.config.band with
    | .BAND_433MHZ => transmit433MHz env signal
    | .BAND_24GHZ => transmit24GHz env
  let w1 := if res.1 then w
    else logError w .WF_ERROR_TRANSMISSION_FAILED "Transmission execution failed"
           env.nowMs env.nowUs
  (transitionToState w1 .WF_CLEANUP
     (if res.1 then "Transmit success" else "Transmit failed")
     env.nowMs env.nowUs,
   res.2)

/-- `RFTestWorkflow::processCleanupState`: disable the radio (an
external effect) and go to IDLE. -/
def processCleanupState (w : RFTestWorkflow) (env : TickEnv) : RFTestWorkflow :=
  transitionToState w .WF_IDLE "Cleanup done" env.nowMs env.nowUs

/-- `RFTestWorkflow::processCurrentState`: dispatch on the current
state. The action list records every radio emit operation the step
performs. -/
def processCurrentState (w : RFTestWorkflow) (env : TickEnv) :
    RFTestWorkflow × List RF433Signal :=
  match w.currentState with
  | .WF_IDLE => (w, [])
  | .WF_INIT => (processInitState w env, [])
  | .WF_LISTENING => (processListeningState w env, [])
  | .WF_ANALYZING => (processAnalyzingState w env, [])
  | .WF_READY => (processReadyState w env, [])
  | .WF_TX_GATED => (processTxGatedState w env, [])
  | .WF_TRANSMIT => processTransmitState w env
  | .WF_CLEANUP => (processCleanupState w env, [])

/-- `RFTestWorkflow::getTimeoutForState`. -/
def getTimeoutForState (w : RFTestWorkflow) : WorkflowState → Nat
  | .WF_INIT => w.config.initTimeout
  | .WF_LISTENING => w.config.listenMaxTime
  | .WF_ANALYZING => w.config.analyzeTimeout
  | .WF_READY => w.config.readyTimeout
  | .WF_TX_GATED => w.config.txGateTimeout
  | .WF_TRANSMIT => w.config.transmitMaxDuration
  | .WF_CLEANUP => w.config.cleanupTimeout
  | .WF_IDLE => 0

/-- `RFTestWorkflow::handleTimeout`: log the timeout, then the per-state
recovery transition (the TRANSMIT deadline additionally raises the
emergency stop). -/
def handleTimeout (w : RFTestWorkflow) (env : TickEnv) : RFTestWorkflow :=
  let w1 := logError w .WF_ERROR_TIMEOUT "State timeout" env.nowMs env.nowUs
  let w2 := logDeterministicEvent w1 env.nowMs env.nowUs .DET_EVENT_TIMEOUT
    "TIMEOUT" "State timeout exceeded"
    ("state=" ++ getStateName w1.currentState ++ " elapsed=" ++
      toString (u32sub env.nowMs w1.stateEntryTime))
  match w2.currentState with
  | .WF_INIT => transitionToState w2 .WF_CLEANUP "Init timeout" env.nowMs env.nowUs
  | .WF_LISTENING => transitionToState w2 .WF_ANALYZING "Listen timeout" env.nowMs env.nowUs
  | .WF_ANALYZING => transitionToState w2 .WF_READY "Analysis timeout" env.nowMs env.nowUs
  | .WF_READY => transitionToState w2 .WF_CLEANUP "Ready timeout" env.nowMs env.nowUs
  | .WF_TX_GATED => transitionToState w2 .WF_READY "Gate timeout" env.nowMs env.nowUs
  | .WF_TRANSMIT => transitionToState { w2 with emergencyStop := true }
      .WF_CLEANUP "Transmit timeout" env.nowMs env.nowUs
  | .WF_CLEANUP => transitionToState w2 .WF_IDLE "Cleanup timeout" env.nowMs env.nowUs
  | .WF_IDLE => w2

/-- `RFTestWorkflow::checkTimeout` (the workflow's): fire
`handleTimeout` when the state has a nonzero deadline and it has
elapsed. -/
def checkTimeoutStep (w : RFTestWorkflow) (env : TickEnv) : RFTestWorkflow :=
  let timeout := getTimeoutForState w w.currentState
  if decide (timeout > 0) && decide (u32sub env.nowMs w.stateEntryTime > timeout) then
    handleTimeout w env
  else w

/-- `RFTestWorkflow::checkEmergencyStop`: a raised emergency stop forces
CLEANUP (and disables the transmitter, an external effect). -/
def checkEmergencyStopStep (w : RFTestWorkflow) (env : TickEnv) :
    RFTestWorkflow :=
  if w.emergencyStop then
    transitionToState w .WF_CLEANUP "Emergency stop" env.nowMs env.nowUs
  else w

/-- One iteration of the cooperative loop in `RFTestWorkflow::start`:
process the current state, then check the state deadline, then the
emergency stop. The action list records the radio emit operations. -/
def tick (w : RFTestWorkflow) (env : TickEnv) :
    RFTestWorkflow × List RF433Signal :=
  let step := processCurrentState w env
  (checkEmergencyStopStep (checkTimeoutStep step.1 env) env, step.2)

-- ============================================================================
-- User operations and reset (rf_test_workflow.cpp)
-- ============================================================================

/-- `RFTestWorkflow::triggerAnalysis`. -/
def triggerAnalysis (w : RFTestWorkflow) (nowMs nowUs : Nat) : RFTestWorkflow :=
  if w.currentState = .WF_LISTENING then
    transitionToState
      (logDeterministicEvent w nowMs nowUs .DET_EVENT_USER_ACTION
        "TRIGGER_ANALYSIS" "User manually triggered analysis" "")
      .WF_ANALYZING "User trigger" nowMs nowUs
  else w

/-- `RFTestWorkflow::selectSignalForTransmission`: only in READY with an
in-range index does it record the selection, log the user action, and
enter TX_GATED; any other state or index does nothing at all. -/
def selectSignalForTransmission (w : RFTestWorkflow) (index : Int)
    (nowMs nowUs : Nat) : RFTestWorkflow :=
  if w.currentState = .WF_READY ∧ 0 ≤ index ∧
      index < (w.captureBuffer.length : Int) then
    let w1 := { w with selectedSignalIndex := index }
    let w2 := logDeterministicEvent w1 nowMs nowUs .DET_EVENT_USER_ACTION
      "SELECT_SIGNAL" "User selected signal for transmission"
      ("signal_index=" ++ toString index)
    transitionToState w2 .WF_TX_GATED "User requested transmission" nowMs nowUs
  else w

/-- `RFTestWorkflow::confirmTransmission`. -/
def confirmTransmission (w : RFTestWorkflow) (nowMs nowUs : Nat) :
    RFTestWorkflow :=
  if w.currentState = .WF_TX_GATED then
    logDeterministicEvent { w with userConfirmed := true } nowMs nowUs
      .DET_EVENT_USER_ACTION "CONFIRM_TX" "User confirmed transmission" ""
  else w

/-- `RFTestWorkflow::cancelTransmission`. -/
def cancelTransmission (w : RFTestWorkflow) (nowMs nowUs : Nat) :
    RFTestWorkflow :=
  if w.currentState = .WF_TX_GATED ∨ w.currentState = .WF_READY then
    logDeterministicEvent { w with userCanceled := true } nowMs nowUs
      .DET_EVENT_USER_ACTION "CANCEL_TX" "User canceled transmission" ""
  else w

/-- `RFTestWorkflow::continueObservation`. -/
def continueObservation (w : RFTestWorkflow) (nowMs nowUs : Nat) :
    RFTestWorkflow :=
  if w.currentState = .WF_READY then
    transitionToState
      (logDeterministicEvent w nowMs nowUs .DET_EVENT_USER_ACTION
        "CONTINUE_OBSERVATION" "User requested more observation" "")
      .WF_LISTENING "User requested more observation" nowMs nowUs
  else w

/-- `RFTestWorkflow::abort`: raise the emergency stop and force
CLEANUP. -/
def abortWorkflow (w : RFTestWorkflow) (nowMs nowUs : Nat) : RFTestWorkflow :=
  transitionToState { w with emergencyStop := true } .WF_CLEANUP
    "Emergency abort" nowMs nowUs

/-- `RFTestWorkflow::reset`: exactly the assignments the source
performs — states, flags, capture buffer, error log and count,
selection, confirmation flags, attempt counter. -/
def RFTestWorkflow.reset (w : RFTestWorkflow) : RFTestWorkflow :=
  { w with
      currentState := .WF_IDLE
      previousState := .WF_IDLE
      running := false
      emergencyStop := false
      captureBuffer := []
      errorLog := []
      errorCount := 0
      selectedSignalIndex := -1
      userConfirmed := false
      userCanceled := false
      transmissionAttempts := 0 }

/-- The asynchronous operations of the user-input port, spec §5. -/
inductive UserAction
  | triggerIt
  | selectIt (index : Int)
  | confirmIt
  | cancelIt
  | continueIt
  | abortIt
  | resetIt

/-- Dispatch of one user-input operation onto the workflow. -/
def applyUserAction (w : RFTestWorkflow) (a : UserAction) (nowMs nowUs : Nat) :
    RFTestWorkflow :=
  match a with
  | .triggerIt => triggerAnalysis w nowMs nowUs
  | .selectIt index => selectSignalForTransmission w index nowMs nowUs
  | .confirmIt => confirmTransmission w nowMs nowUs
  | .cancelIt => cancelTransmission w nowMs nowUs
  | .continueIt => continueObservation w nowMs nowUs
  | .abortIt => abortWorkflow w nowMs nowUs
  | .resetIt => w.reset

-- ============================================================================
-- Helper lemmas
-- ============================================================================

theorem logDet_currentState (w : RFTestWorkflow) (ms us : Nat)
    (ty : DeterministicEventType) (e r d : String) :
    (logDeterministicEvent w ms us ty e r d).currentState = w.currentState := by
  unfold logDeterministicEvent
  split <;> rfl

theorem logDet_selectedSignalIndex (w : RFTestWorkflow) (ms us : Nat)
    (ty : DeterministicEventType) (e r d : String) :
    (logDeterministicEvent w ms us ty e r d).selectedSignalIndex =
      w.selectedSignalIndex := by
  unfold logDeterministicEvent
  split <;> rfl

theorem transitionToState_currentState (w : RFTestWorkflow)
    (ns : WorkflowState) (r : String) (ms us : Nat) :
    (transitionToState w ns r ms us).currentState = ns := by
  unfold transitionToState logStateEntry logTransition logStateExit
  simp only [logDet_currentState]

theorem transitionToState_selectedSignalIndex (w : RFTestWorkflow)
    (ns : WorkflowState) (r : String) (ms us : Nat) :
    (transitionToState w ns r ms us).selectedSignalIndex =
      w.selectedSignalIndex := by
  unfold transitionToState logStateEntry logTransition logStateExit
  simp only [logDet_selectedSignalIndex, logDet_currentState]

-- ============================================================================
-- C2: transmit-policy evaluation order
-- ============================================================================

/-- C2: `checkTransmitPolicy` returns exactly the spec's short-circuit
cascade Timeout → NoConfirmation → Blacklist → RateLimit →
Policy(duration), the first failing check naming the denial, and it
returns `PERMIT_ALLOWED` iff no check fails. -/
theorem C2_policy_cascade (s : SafetyModule) (now : Nat)
    (request : TransmitRequest) :
    (s.checkTransmitPolicy now request).1 = specPolicyDecision s now request
    ∧ ((s.checkTransmitPolicy now request).1 = .PERMIT_ALLOWED ↔
        ((s.checkTimeout now).1 = false
         ∧ ((s.checkTimeout now).2.requireConfirmation && !request.confirmed) = false
         ∧ (s.checkTimeout now).2.isFrequencyAllowed request.frequency = true
         ∧ ((s.checkTimeout now).2.isRateLimitOK now).1 = true
         ∧ request.duration ≤ ((s.checkTimeout now).2.isRateLimitOK now).2.maxTransmitDuration)) := by
  unfold SafetyModule.checkTransmitPolicy specPolicyDecision
  rcases hct : s.checkTimeout now with ⟨b, s1⟩
  cases b
  · rcases hrl : s1.isRateLimitOK now with ⟨rb, s2⟩
    cases rb <;> simp only [hct, hrl] <;> split_ifs <;> simp_all
  · exact ⟨rfl, by simp⟩

-- ============================================================================
-- C10: blacklist insertion
-- ============================================================================

/-- C10: `addFrequencyToBlacklist` refuses (false, unchanged) when the
frequency is already within 0.1 MHz of an entry, otherwise appends it
and returns true; after the call the frequency is not allowed, and a
second insertion of the same frequency refuses and changes nothing. -/
theorem C10_blacklist_add (s : SafetyModule) (f : Rat) :
    (s.isFrequencyAllowed f = false → s.addFrequencyToBlacklist f = (false, s))
    ∧ (s.isFrequencyAllowed f = true →
        s.addFrequencyToBlacklist f =
          (true, { s with blacklistedFrequencies := s.blacklistedFrequencies ++ [f] }))
    ∧ (s.addFrequencyToBlacklist f).2.isFrequencyAllowed f = false
    ∧ (s.addFrequencyToBlacklist f).2.addFrequencyToBlacklist f =
        (false, (s.addFrequencyToBlacklist f).2) := by
  have hself : ∀ s' : SafetyModule, f ∈ s'.blacklistedFrequencies →
      s'.isFrequencyAllowed f = false := by
    intro s' hmem
    unfold SafetyModule.isFrequencyAllowed
    rw [Bool.eq_false_iff]
    intro hall
    rw [List.all_eq_true] at hall
    have := hall f hmem
    simp at this
  have hafter : (s.addFrequencyToBlacklist f).2.isFrequencyAllowed f = false := by
    unfold SafetyModule.addFrequencyToBlacklist
    split
    · next h => simpa using h
    · exact hself _ (by simp)
  refine ⟨?_, ?_, hafter, ?_⟩
  · intro hA
    unfold SafetyModule.addFrequencyToBlacklist
    simp [hA]
  · intro hA
    unfold SafetyModule.addFrequencyToBlacklist
    simp [hA]
  · rw [show (s.addFrequencyToBlacklist f).2.addFrequencyToBlacklist f =
        if !((s.addFrequencyToBlacklist f).2.isFrequencyAllowed f) then
          (false, (s.addFrequencyToBlacklist f).2)
        else (true, { (s.addFrequencyToBlacklist f).2 with
          blacklistedFrequencies :=
            (s.addFrequencyToBlacklist f).2.blacklistedFrequencies ++ [f] })
      from rfl]
    simp [hafter]

/-- Witness for C10 at a concrete input: 121.5 MHz enters an empty
blacklist and a second insertion refuses. -/
theorem C10_blacklist_add_witness :
    (SafetyModule.start.addFrequencyToBlacklist (243/2)).1 = true
    ∧ ((SafetyModule.start.addFrequencyToBlacklist (243/2)).2.addFrequencyToBlacklist (243/2)).1 = false := by
  constructor
  · rw [(C10_blacklist_add SafetyModule.start (243/2)).2.1 (by decide)]
  · rw [(C10_blacklist_add SafetyModule.start (243/2)).2.2.2]

-- ============================================================================
-- C7: sub-GHz device classification
-- ============================================================================

set_option maxRecDepth 4000 in
/-- C7: the 433 MHz classification is the spec's first-match cascade as
a total function of the average pulse duration and the pulse count; the
gap `350 ≤ avg ≤ 400` with fewer than 48 pulses maps to "Unknown"; equal
inputs always classify identically. -/
theorem C7_classification (s : CapturedSignalData) :
    (classifyDevice433MHz s).deviceType = specClassifyLabel (avgPulse s) s.pulseCount
    ∧ (350 ≤ avgPulse s → avgPulse s ≤ 400 → s.pulseCount < 48 →
        (classifyDevice433MHz s).deviceType = "Unknown")
    ∧ ∀ t : CapturedSignalData, avgPulse s = avgPulse t →
        s.pulseCount = t.pulseCount →
        (classifyDevice433MHz s).deviceType = (classifyDevice433MHz t).deviceType := by
  have hmain : ∀ u : CapturedSignalData,
      (classifyDevice433MHz u).deviceType = specClassifyLabel (avgPulse u) u.pulseCount := by
    intro u
    unfold classifyDevice433MHz specClassifyLabel
    simp only [Bool.and_eq_true, decide_eq_true_eq, ge_iff_le]
    split_ifs <;> simp <;> decide
  refine ⟨hmain s, ?_, ?_⟩
  · intro h1 h2 h3
    rw [hmain s]
    unfold specClassifyLabel
    split_ifs with g1 g2 g3
    · exact absurd g1.1 (not_lt.mpr h2)
    · exact absurd g2.1 (not_lt.mpr h1)
    · omega
    · rfl
  · intro t h1 h2
    rw [hmain s, hmain t, h1, h2]

/-- Witness for C7 at a concrete input: a 360 µs, 40-pulse signal sits
in the gap and classifies as "Unknown". -/
theorem C7_classification_witness :
    (classifyDevice433MHz
      { pulseTimes := some (List.replicate 40 360), pulseCount := 40 }).deviceType
      = "Unknown" := by
  refine (C7_classification _).2.1 ?_ ?_ (by decide) <;>
    · unfold avgPulse CapturedSignalData.pulses
      norm_num

-- ============================================================================
-- C8: reset
-- ============================================================================

/-- C8 counterexample: starting from a fresh workflow, `abort()` leaves
a transition-log entry that a subsequent `reset()` does not clear, so
the reset state differs from a freshly constructed workflow. -/
theorem C8_reset_counterexample :
    (RFTestWorkflow.reset (abortWorkflow initialWorkflow 3 4)).transitionLog ≠
      initialWorkflow.transitionLog := by
  decide

/-- C8 amended: `reset()` restores exactly the fields the source assigns
(states, running and emergency flags, capture buffer, error log and
count, selection, confirmation flags, attempt counter) to their
freshly-constructed values, and leaves `lastError`, the analysis result,
the transition log, the deterministic log and its sequence counter, the
entry/start times and the configuration untouched. -/
theorem C8_reset_amended (w : RFTestWorkflow) :
    w.reset.currentState = initialWorkflow.currentState
    ∧ w.reset.previousState = initialWorkflow.previousState
    ∧ w.reset.running = initialWorkflow.running
    ∧ w.reset.emergencyStop = initialWorkflow.emergencyStop
    ∧ w.reset.captureBuffer = initialWorkflow.captureBuffer
    ∧ w.reset.errorLog = initialWorkflow.errorLog
    ∧ w.reset.errorCount = initialWorkflow.errorCount
    ∧ w.reset.selectedSignalIndex = initialWorkflow.selectedSignalIndex
    ∧ w.reset.userConfirmed = initialWorkflow.userConfirmed
    ∧ w.reset.userCanceled = initialWorkflow.userCanceled
    ∧ w.reset.transmissionAttempts = initialWorkflow.transmissionAttempts
    ∧ w.reset.lastError = w.lastError
    ∧ w.reset.analysisResult = w.analysisResult
    ∧ w.reset.transitionLog = w.transitionLog
    ∧ w.reset.deterministicLog = w.deterministicLog
    ∧ w.reset.deterministicLogSequence = w.deterministicLogSequence
    ∧ w.reset.stateEntryTime = w.stateEntryTime
    ∧ w.reset.workflowStartTime = w.workflowStartTime
    ∧ w.reset.config = w.config :=
  ⟨rfl, rfl, rfl, rfl, rfl, rfl, rfl, rfl, rfl, rfl, rfl, rfl, rfl, rfl,
   rfl, rfl, rfl, rfl, rfl⟩

-- ============================================================================
-- C4: signal selection guard
-- ============================================================================

/-- C4: `selectSignalForTransmission` enters TX_GATED (recording the
selection) only from READY with an in-range index; in any other state or
with an out-of-range index the workflow — state, selected index,
transition log, deterministic log — is left completely unchanged. -/
theorem C4_select_guard (w : RFTestWorkflow) (index : Int) (ms us : Nat) :
    (¬(w.currentState = .WF_READY ∧ 0 ≤ index ∧
        index < (w.captureBuffer.length : Int)) →
      selectSignalForTransmission w index ms us = w)
    ∧ (w.currentState = .WF_READY → 0 ≤ index →
        index < (w.captureBuffer.length : Int) →
        (selectSignalForTransmission w index ms us).currentState = .WF_TX_GATED
        ∧ (selectSignalForTransmission w index ms us).selectedSignalIndex = index) := by
  constructor
  · intro h
    unfold selectSignalForTransmission
    rw [if_neg h]
  · intro h1 h2 h3
    unfold selectSignalForTransmission
    rw [if_pos ⟨h1, h2, h3⟩]
    refine ⟨?_, ?_⟩ <;>
      simp only [transitionToState_currentState,
        transitionToState_selectedSignalIndex, logDet_selectedSignalIndex]

/-- A workflow sitting in READY with one captured signal. -/
def readySample : RFTestWorkflow :=
  { currentState := .WF_READY, captureBuffer := [{}] }

/-- Witness for C4 at a concrete input: selecting signal 0 from READY
with a one-signal buffer enters TX_GATED with the index recorded. -/
theorem C4_select_guard_witness :
    (selectSignalForTransmission readySample 0 1 2).currentState = .WF_TX_GATED
    ∧ (selectSignalForTransmission readySample 0 1 2).selectedSignalIndex = 0 :=
  (C4_select_guard readySample 0 1 2).2 rfl (by decide) (by decide)

-- ============================================================================
-- C9: the 2.4 GHz binding sub-check
-- ============================================================================

/-- C9: with an in-range selected index the binding sub-check
`wasAddressObserved` on the selected signal's protocol always succeeds
(the selected signal is itself scanned), so `check24GHzGate` fails
exactly when the packet length is outside [1, 32]. -/
theorem C9_binding_gate (w : RFTestWorkflow)
    (h0 : 0 ≤ w.selectedSignalIndex)
    (h : w.selectedSignalIndex.toNat < w.captureBuffer.length) :
    wasAddressObserved w (selectedSignal w).protocol = true
    ∧ (check24GHzGate w = false ↔
        ((selectedSignal w).dataLength < 1 ∨ 32 < (selectedSignal w).dataLength)) := by
  have hmem : selectedSignal w ∈ w.captureBuffer := by
    unfold selectedSignal
    rw [List.getD_eq_getElem _ _ h]
    exact List.getElem_mem h
  have hobs : wasAddressObserved w (selectedSignal w).protocol = true := by
    unfold wasAddressObserved
    rw [List.any_eq_true]
    exact ⟨selectedSignal w, hmem, by simp⟩
  refine ⟨hobs, ?_⟩
  unfold check24GHzGate
  simp only [hobs, Bool.not_true, Bool.false_eq_true, if_false]
  by_cases hlen : (selectedSignal w).dataLength < 1 ∨ 32 < (selectedSignal w).dataLength
  · rcases hlen with hl | hl <;> simp [hl]
  · push_neg at hlen
    have : (decide ((selectedSignal w).dataLength < 1) ||
        decide ((selectedSignal w).dataLength > 32)) = false := by
      simp; omega
    simp [this]
    omega

/-- A workflow with one captured zero-length packet selected. -/
def packetSample : RFTestWorkflow :=
  { currentState := .WF_TX_GATED,
    config := { band := .BAND_24GHZ },
    selectedSignalIndex := 0,
    captureBuffer := [{ protocol := "E7E7E7E7", dataLength := 0 }] }

/-- Witness for C9 at a concrete input: the binding sub-check passes for
the selected packet, and the gate fails on its zero data length. -/
theorem C9_binding_gate_witness :
    wasAddressObserved packetSample (selectedSignal packetSample).protocol = true
    ∧ (check24GHzGate packetSample = false ↔
        ((selectedSignal packetSample).dataLength < 1 ∨
          32 < (selectedSignal packetSample).dataLength)) :=
  C9_binding_gate packetSample (by decide) (by decide)

-- ============================================================================
-- C3: confirmation-gate semantics
-- ============================================================================

theorem confFlags_shift (uc ucan : Bool) (arrivals : Nat → Bool × Bool) :
    ∀ k, confFlags uc ucan arrivals (k + 1) =
      confFlags (uc || (arrivals 0).1) (ucan || (arrivals 0).2)
        (fun j => arrivals (j + 1)) k := by
  intro k
  induction k with
  | zero => rfl
  | succ k ih =>
    show ((confFlags uc ucan arrivals (k + 1)).1 || (arrivals (k + 1)).1,
          (confFlags uc ucan arrivals (k + 1)).2 || (arrivals (k + 1)).2) = _
    rw [ih]
    rfl

theorem confGate_true_clears (f : Nat) :
    ∀ (uc ucan : Bool) (arrivals : Nat → Bool × Bool),
      (confGate f uc ucan arrivals).1 = true →
      (confGate f uc ucan arrivals).2.1 = false := by
  induction f with
  | zero => intro uc ucan arrivals h; simp [confGate] at h
  | succ f ih =>
    intro uc ucan arrivals h
    unfold confGate at h ⊢
    by_cases huc : uc = true
    · simp [huc]
    · have huc' : uc = false := by simpa using huc
      by_cases hcan : ucan = true
      · simp [huc', hcan] at h
      · have hcan' : ucan = false := by simpa using hcan
        simp only [huc', hcan', if_false, Bool.false_eq_true] at h ⊢
        exact ih _ _ _ h

theorem confGate_true_iff (f : Nat) :
    ∀ (uc ucan : Bool) (arrivals : Nat → Bool × Bool),
      (confGate f uc ucan arrivals).1 = true ↔
      ∃ k, k < f ∧ (confFlags uc ucan arrivals k).1 = true ∧
        ∀ j, j < k → (confFlags uc ucan arrivals j).2 = false := by
  induction f with
  | zero =>
    intro uc ucan arrivals
    simp [confGate]
  | succ f ih =>
    intro uc ucan arrivals
    unfold confGate
    by_cases huc : uc = true
    · simp only [huc, if_true]
      constructor
      · intro _
        exact ⟨0, Nat.succ_pos f, by simp [confFlags, huc], by omega⟩
      · intro _
        trivial
    · have huc' : uc = false := by simpa using huc
      by_cases hcan : ucan = true
      · simp only [huc', hcan, Bool.false_eq_true, if_false, if_true]
        constructor
        · intro h
          exact absurd h (by simp)
        · rintro ⟨k, _, h1, h2⟩
          cases k with
          | zero => simp [confFlags] at h1
          | succ k' =>
            have h0 := h2 0 (Nat.succ_pos k')
            simp [confFlags] at h0
      · have hcan' : ucan = false := by simpa using hcan
        simp only [huc', hcan', Bool.false_eq_true, if_false]
        rw [ih]
        constructor
        · rintro ⟨k, hk, h1, h2⟩
          refine ⟨k + 1, by omega, ?_, ?_⟩
          · rw [confFlags_shift]; exact h1
          · intro j hj
            cases j with
            | zero => simp [confFlags]
            | succ j' => rw [confFlags_shift]; exact h2 j' (by omega)
        · rintro ⟨k, hk, h1, h2⟩
          cases k with
          | zero => simp [confFlags] at h1
          | succ k' =>
            refine ⟨k', by omega, ?_, ?_⟩
            · rw [← confFlags_shift]; exact h1
            · intro j hj
              have hj1 := h2 (j + 1) (by omega)
              rw [confFlags_shift] at hj1
              exact hj1

/-- C3: the confirmation gate (a) clears the consumed `userConfirmed`
flag on every authorizing (true) return, so one Confirm authorizes at
most one gate pass, and (b) returns true exactly when, within the
poll window the `tx_gate_timeout` loop bound admits, the confirmed flag
is observed set at some poll with no cancel observed at any earlier
poll; every other outcome — a Cancel seen first, or fuel (the timeout)
exhausted — returns false. -/
theorem C3_confirmation_gate (fuel : Nat) (uc ucan : Bool)
    (arrivals : Nat → Bool × Bool) :
    ((confGate fuel uc ucan arrivals).1 = true →
      (confGate fuel uc ucan arrivals).2.1 = false)
    ∧ ((confGate fuel uc ucan arrivals).1 = true ↔
        ∃ k, k < fuel ∧ (confFlags uc ucan arrivals k).1 = true ∧
          ∀ j, j < k → (confFlags uc ucan arrivals j).2 = false) :=
  ⟨confGate_true_clears fuel uc ucan arrivals, confGate_true_iff fuel uc ucan arrivals⟩

/-- Witness for C3 at a concrete input: a Confirm arriving during the
second delay makes the three-poll gate return true with the flag
cleared. -/
theorem C3_confirmation_gate_witness :
    (confGate 3 false false (fun k => (decide (k = 1), false))).1 = true
    ∧ (confGate 3 false false (fun k => (decide (k = 1), false))).2.1 = false := by
  have h : (confGate 3 false false (fun k => (decide (k = 1), false))).1 = true := by decide
  exact ⟨h, (C3_confirmation_gate 3 false false (fun k => (decide (k = 1), false))).1 h⟩

-- ============================================================================
-- C5: rate-limit window
-- ============================================================================

/-- A transmit request as the threat-scenario tests build them, used to
drive `logTransmitAttempt` reachably. -/
def c5Request : TransmitRequest :=
  { frequency := 43392/100, duration := 100, timestamp := 4000000000,
    confirmed := true, reason := "replay test" }

/-- C5 counterexample: a transmission logged at millis = 4000000000 is
still in the window after a rate-limit query at millis = 100000 (the
clock having wrapped past 2^32 in between), although under 32-bit
modular arithmetic that timestamp is about 295068 seconds old — far
outside [now − 60000, now] — and exceeds `now`. The claimed containment
fails on window contents reachable through `logTransmitAttempt`. -/
theorem C5_rate_window_counterexample :
    ((SafetyModule.start.logTransmitAttempt 4000000000 c5Request true
        .PERMIT_ALLOWED).isRateLimitOK 100000).2.recentTransmits = [4000000000]
    ∧ 60000 < u32sub 100000 4000000000
    ∧ 100000 < 4000000000 := by
  refine ⟨by decide, by decide, by decide⟩

/-- C5 amended: provided every window timestamp is at most `now` (the
clock has not wrapped around 2^32 since the entries were logged), a
rate-limit query prunes the window to timestamps `t` with
`now − 60000 ≤ t ≤ now`; in particular when `now < 60000` (where the
cutoff `now − 60000` wraps) the window comes out empty; and the gate
passes iff the remaining count is strictly below
`maxTransmitsPerMinute`. With wrapped (future-valued) timestamps in the
window the modular containment can fail, per the counterexample. -/
theorem C5_rate_window_amended (s : SafetyModule) (now : Nat)
    (hle : ∀ t ∈ s.recentTransmits, t ≤ now) (hnow : now < U32MOD) :
    (∀ t ∈ (s.isRateLimitOK now).2.recentTransmits,
        now - 60000 ≤ t ∧ t ≤ now)
    ∧ ((s.isRateLimitOK now).1 = true ↔
        (((s.isRateLimitOK now).2.recentTransmits.length : Int) <
          s.maxTransmitsPerMinute))
    ∧ (now < 60000 → (s.isRateLimitOK now).2.recentTransmits = []) := by
  have hcut : 60000 ≤ now → u32sub now 60000 = now - 60000 := by
    intro h6
    unfold u32sub U32MOD
    unfold U32MOD at hnow
    omega
  have hcut2 : now < 60000 → now < u32sub now 60000 := by
    intro h6
    unfold u32sub U32MOD
    unfold U32MOD at hnow
    omega
  refine ⟨?_, ?_, ?_⟩
  · intro t ht
    unfold SafetyModule.isRateLimitOK SafetyModule.cleanupOldTransmits at ht
    simp only [List.mem_filter, Bool.not_eq_true', decide_eq_false_iff_not,
      Nat.not_lt] at ht
    obtain ⟨htm, hp⟩ := ht
    have hle' := hle t htm
    refine ⟨?_, hle'⟩
    by_cases h6 : 60000 ≤ now
    · rw [hcut h6] at hp
      omega
    · exact absurd (lt_of_lt_of_le (hcut2 (by omega)) hp) (by omega)
  · unfold SafetyModule.isRateLimitOK SafetyModule.cleanupOldTransmits
    simp
  · intro h6
    unfold SafetyModule.isRateLimitOK SafetyModule.cleanupOldTransmits
    simp only []
    rw [List.eq_nil_iff_forall_not_mem]
    intro t ht
    simp only [List.mem_filter, Bool.not_eq_true', decide_eq_false_iff_not,
      Nat.not_lt] at ht
    exact absurd (lt_of_lt_of_le (hcut2 h6) ht.2) (by have := hle t ht.1; omega)

/-- Witness for C5 amended at a concrete input: two entries, one fresh
and one stale, queried at millis = 65000 without clock wrap. -/
theorem C5_rate_window_amended_witness :
    (∀ t ∈ (({ SafetyModule.start with recentTransmits := [64000, 3000] }
        : SafetyModule).isRateLimitOK 65000).2.recentTransmits,
        65000 - 60000 ≤ t ∧ t ≤ 65000)
    ∧ ((({ SafetyModule.start with recentTransmits := [64000, 3000] }
        : SafetyModule).isRateLimitOK 65000).1 = true ↔
        (((({ SafetyModule.start with recentTransmits := [64000, 3000] }
          : SafetyModule).isRateLimitOK 65000).2.recentTransmits.length : Int) <
          ({ SafetyModule.start with recentTransmits := [64000, 3000] }
            : SafetyModule).maxTransmitsPerMinute)) :=
  ⟨(C5_rate_window_amended { SafetyModule.start with recentTransmits := [64000, 3000] }
      65000 (by decide) (by decide)).1,
   (C5_rate_window_amended { SafetyModule.start with recentTransmits := [64000, 3000] }
      65000 (by decide) (by decide)).2.1⟩

-- ============================================================================
-- C6: transition event triple and sequence continuity
-- ============================================================================

/-- The deterministic log is seamless: entry at position `i` carries
sequence number `ctr - length + i`, so consecutive entries carry
consecutive numbers and the newest carries `ctr - 1`. This is invariant
I5 as a predicate on the log and the sequence counter. -/
def seqContiguous (log : List DeterministicLogEntry) (ctr : Nat) : Prop :=
  ∀ i e, log.get? i = some e → e.sequenceNumber + log.length = ctr + i

theorem seqContiguous_append (L : List DeterministicLogEntry) (ctr : Nat)
    (e : DeterministicLogEntry) (hsc : seqContiguous L ctr)
    (he : e.sequenceNumber = ctr) : seqContiguous (L ++ [e]) (ctr + 1) := by
  intro i x hx
  rw [List.length_append, List.length_singleton]
  have hbound : i < L.length + 1 := by
    have h := List.get?_eq_some.mp hx
    simpa using h.1
  by_cases hiL : i < L.length
  · rw [List.get?_append hiL] at hx
    have := hsc i x hx
    omega
  · have hieq : i = L.length := by omega
    subst hieq
    rw [List.get?_concat_length] at hx
    cases hx
    omega

theorem seqContiguous_tail (L : List DeterministicLogEntry) (ctr : Nat)
    (hsc : seqContiguous L ctr) : seqContiguous (L.drop 1) ctr := by
  intro i x hx
  rw [List.get?_drop] at hx
  have h1 := hsc (1 + i) x hx
  have h2 : 1 + i < L.length := by
    have h := List.get?_eq_some.mp hx
    exact h.1
  rw [List.length_drop]
  omega

theorem logDet_eq (w : RFTestWorkflow) (ms us : Nat)
    (ty : DeterministicEventType) (e r d : String)
    (hen : w.deterministicLoggingEnabled = true) :
    logDeterministicEvent w ms us ty e r d =
      { w with
          deterministicLog := evictIfFull w.deterministicLog ++
            [mkDetEntry w ms us ty e r d]
          deterministicLogSequence := w.deterministicLogSequence + 1 } := by
  unfold logDeterministicEvent
  rw [hen]
  rfl

theorem evict_append (Y Z : List DeterministicLogEntry)
    (hZ : Z.length < DETERMINISTIC_LOG_MAX_ENTRIES) :
    ∃ pre, evictIfFull (Y ++ Z) = pre ++ Z := by
  unfold evictIfFull
  split
  · next h =>
    have hY : 1 ≤ Y.length := by
      rw [List.length_append] at h
      omega
    refine ⟨Y.drop 1, ?_⟩
    rw [List.drop_append_of_le_length hY]
  · exact ⟨Y, rfl⟩

theorem evictIfFull_seqContiguous (L : List DeterministicLogEntry) (ctr : Nat)
    (hsc : seqContiguous L ctr) : seqContiguous (evictIfFull L) ctr := by
  unfold evictIfFull
  split
  · exact seqContiguous_tail L ctr hsc
  · exact hsc

theorem logDet_seqContiguous (w : RFTestWorkflow) (ms us : Nat)
    (ty : DeterministicEventType) (e r d : String)
    (hsc : seqContiguous w.deterministicLog w.deterministicLogSequence) :
    seqContiguous (logDeterministicEvent w ms us ty e r d).deterministicLog
      (logDeterministicEvent w ms us ty e r d).deterministicLogSequence := by
  by_cases hen : w.deterministicLoggingEnabled = true
  · rw [logDet_eq w ms us ty e r d hen]
    exact seqContiguous_append _ _ _
      (evictIfFull_seqContiguous _ _ hsc) rfl
  · have hen' : w.deterministicLoggingEnabled = false := by simpa using hen
    unfold logDeterministicEvent
    rw [hen']
    exact hsc

/-- The STATE_EXIT entry `transitionToState` emits first. -/
def exitEntry (w : RFTestWorkflow) (reason : String) (ms us : Nat) :
    DeterministicLogEntry :=
  { sequenceNumber := w.deterministicLogSequence, timestampMs := ms,
    timestampUs := us, eventType := .DET_EVENT_STATE_EXIT,
    state := w.currentState, prevState := w.previousState,
    event := ("EXIT_" ++ getStateName w.currentState).take 31,
    reason := reason.take 63, data := "".take 63 }

/-- The TRANSITION entry `transitionToState` emits second, carrying the
from/to pair in its data field. -/
def transEntry (w : RFTestWorkflow) (ns : WorkflowState) (reason : String)
    (ms us : Nat) : DeterministicLogEntry :=
  { sequenceNumber := w.deterministicLogSequence + 1, timestampMs := ms,
    timestampUs := us, eventType := .DET_EVENT_TRANSITION,
    state := w.currentState, prevState := w.previousState,
    event := "TRANSITION".take 31, reason := reason.take 63,
    data := ("from=" ++ getStateName w.currentState ++ " to=" ++
      getStateName ns).take 63 }

/-- The STATE_ENTRY entry `transitionToState` emits third, after the
state update. -/
def entryEntry (w : RFTestWorkflow) (ns : WorkflowState) (reason : String)
    (ms us : Nat) : DeterministicLogEntry :=
  { sequenceNumber := w.deterministicLogSequence + 1 + 1,
    timestampMs := ms, timestampUs := us,
    eventType := .DET_EVENT_STATE_ENTRY, state := ns,
    prevState := w.currentState,
    event := ("ENTER_" ++ getStateName ns).take 31,
    reason := reason.take 63, data := "".take 63 }

set_option maxHeartbeats 1000000 in
/-- C6: with deterministic logging enabled, one state transition appends
exactly the triple STATE_EXIT (old state), TRANSITION (with `from=`/
`to=` data), STATE_ENTRY (new state) with consecutive strictly
increasing sequence numbers; moreover any single emitted event preserves
the global invariant that each entry's sequence number is the previous
entry's plus one (ending at counter − 1), so the property holds across
a whole run. -/
theorem C6_transition_event_triple (w : RFTestWorkflow) (ns : WorkflowState)
    (reason : String) (ms us : Nat)
    (hen : w.deterministicLoggingEnabled = true) :
    (∃ pre e1 e2 e3,
      (transitionToState w ns reason ms us).deterministicLog = pre ++ [e1, e2, e3]
      ∧ e1.eventType = .DET_EVENT_STATE_EXIT ∧ e1.state = w.currentState
      ∧ e2.eventType = .DET_EVENT_TRANSITION
      ∧ e2.data = ("from=" ++ getStateName w.currentState ++ " to=" ++
          getStateName ns).take 63
      ∧ e3.eventType = .DET_EVENT_STATE_ENTRY ∧ e3.state = ns
      ∧ e1.sequenceNumber = w.deterministicLogSequence
      ∧ e2.sequenceNumber = w.deterministicLogSequence + 1
      ∧ e3.sequenceNumber = w.deterministicLogSequence + 2)
    ∧ (seqContiguous w.deterministicLog w.deterministicLogSequence →
        seqContiguous (transitionToState w ns reason ms us).deterministicLog
          (transitionToState w ns reason ms us).deterministicLogSequence)
    ∧ (∀ (v : RFTestWorkflow) ms2 us2 ty e r d,
        seqContiguous v.deterministicLog v.deterministicLogSequence →
        seqContiguous (logDeterministicEvent v ms2 us2 ty e r d).deterministicLog
          (logDeterministicEvent v ms2 us2 ty e r d).deterministicLogSequence) := by
  refine ⟨?_, ?_, ?_⟩
  · have hlog : (transitionToState w ns reason ms us).deterministicLog =
        evictIfFull (evictIfFull (evictIfFull w.deterministicLog ++
          [exitEntry w reason ms us]) ++ [transEntry w ns reason ms us]) ++
          [entryEntry w ns reason ms us] := by
      simp only [transitionToState, logStateExit, logTransition, logStateEntry,
        logDeterministicEvent, mkDetEntry, hen, Bool.not_true, if_false,
        Bool.false_eq_true, exitEntry, transEntry, entryEntry]
    obtain ⟨p1, hp1⟩ := evict_append (evictIfFull w.deterministicLog)
      [exitEntry w reason ms us]
      (by norm_num [DETERMINISTIC_LOG_MAX_ENTRIES])
    rw [hp1, List.append_assoc] at hlog
    simp only [List.singleton_append] at hlog
    obtain ⟨p2, hp2⟩ := evict_append p1
      [exitEntry w reason ms us, transEntry w ns reason ms us]
      (by norm_num [DETERMINISTIC_LOG_MAX_ENTRIES])
    rw [hp2, List.append_assoc] at hlog
    simp only [List.cons_append, List.singleton_append, List.nil_append] at hlog
    exact ⟨p2, exitEntry w reason ms us, transEntry w ns reason ms us,
      entryEntry w ns reason ms us, hlog, rfl, rfl, rfl,
      by simp only [transEntry], rfl, rfl, rfl, rfl, rfl⟩
  · intro hsc
    unfold transitionToState logStateEntry logTransition logStateExit
    exact logDet_seqContiguous _ _ _ _ _ _ _
      (logDet_seqContiguous _ _ _ _ _ _ _
        (logDet_seqContiguous _ _ _ _ _ _ _ hsc))
  · intro v ms2 us2 ty e r d hsc
    exact logDet_seqContiguous v ms2 us2 ty e r d hsc



/-- Witness for C6 at a concrete input: the IDLE → INIT transition of a
fresh workflow emits the EXIT/TRANSITION/ENTRY triple with sequence
numbers 0, 1, 2. -/
theorem C6_transition_event_triple_witness :
    ∃ pre e1 e2 e3,
      (transitionToState initialWorkflow .WF_INIT "User started workflow"
        5 7).deterministicLog = pre ++ [e1, e2, e3]
      ∧ e1.eventType = .DET_EVENT_STATE_EXIT
      ∧ e1.state = initialWorkflow.currentState
      ∧ e2.eventType = .DET_EVENT_TRANSITION
      ∧ e2.data = ("from=" ++ getStateName initialWorkflow.currentState ++
          " to=" ++ getStateName .WF_INIT).take 63
      ∧ e3.eventType = .DET_EVENT_STATE_ENTRY ∧ e3.state = .WF_INIT
      ∧ e1.sequenceNumber = initialWorkflow.deterministicLogSequence
      ∧ e2.sequenceNumber = initialWorkflow.deterministicLogSequence + 1
      ∧ e3.sequenceNumber = initialWorkflow.deterministicLogSequence + 2 :=
  (C6_transition_event_triple initialWorkflow .WF_INIT "User started workflow"
    5 7 rfl).1

-- ============================================================================
-- C1: TRANSMIT is gated
-- ============================================================================

theorem logError_currentState (w : RFTestWorkflow) (err : WorkflowError)
    (msg : String) (ms us : Nat) :
    (logError w err msg ms us).currentState = w.currentState := by
  unfold logError
  rw [logDet_currentState]

theorem capture433_currentState (sigs : List RF433Signal) :
    ∀ w : RFTestWorkflow,
      (capture433MHzSignals w sigs).currentState = w.currentState := by
  induction sigs with
  | nil => intro w; rfl
  | cons s rest ih =>
    intro w
    unfold capture433MHzSignals
    dsimp only
    split
    · split
      · exact ih w
      · split
        · exact ih _
        · exact ih w
    · rfl

theorem captureSignals_currentState (w : RFTestWorkflow) (env : TickEnv) :
    (captureSignals w env).currentState = w.currentState := by
  unfold captureSignals
  split
  · split
    · exact capture433_currentState env.rxSignals w
    · rfl
  · rfl

theorem handleTimeout_not_transmit (w : RFTestWorkflow) (env : TickEnv) :
    (handleTimeout w env).currentState ≠ .WF_TRANSMIT := by
  unfold handleTimeout
  simp only [logDet_currentState, logError_currentState]
  cases hcs : w.currentState <;>
    simp [hcs, transitionToState_currentState, logDet_currentState,
      logError_currentState]

theorem checkTimeoutStep_transmit (w : RFTestWorkflow) (env : TickEnv) :
    (checkTimeoutStep w env).currentState = .WF_TRANSMIT →
    w.currentState = .WF_TRANSMIT := by
  unfold checkTimeoutStep
  dsimp only
  split
  · intro h
    exact absurd h (handleTimeout_not_transmit w env)
  · exact id

theorem checkEmergencyStopStep_transmit (w : RFTestWorkflow) (env : TickEnv) :
    (checkEmergencyStopStep w env).currentState = .WF_TRANSMIT →
    w.currentState = .WF_TRANSMIT := by
  unfold checkEmergencyStopStep
  split
  · intro h
    rw [transitionToState_currentState] at h
    exact absurd h (by simp)
  · exact id

set_option maxHeartbeats 1000000 in
/-- C1: (a) a tick performs a radio emit operation only when the current
state is TRANSMIT; (b) a tick ends in TRANSMIT only when it started in
TX_GATED and, within that TX_GATED processing pass, the attempt counter
stayed within bounds, the selected index was in range, and gate 1
(policy), gate 2 (confirmation), gate 3 (rate limit) and gate 4
(band-specific) all passed in that order; (c) no user-input operation
ever puts the machine into TRANSMIT. -/
theorem C1_transmit_gated (w : RFTestWorkflow) (env : TickEnv) :
    ((tick w env).2 ≠ [] → w.currentState = .WF_TRANSMIT)
    ∧ ((tick w env).1.currentState = .WF_TRANSMIT →
        w.currentState = .WF_TX_GATED
        ∧ (w.transmissionAttempts + 1) % 256 ≤ 3
        ∧ 0 ≤ w.selectedSignalIndex
        ∧ w.selectedSignalIndex < (w.captureBuffer.length : Int)
        ∧ checkPolicyGate
            { w with transmissionAttempts := (w.transmissionAttempts + 1) % 256 }
            = true
        ∧ (confGate env.confirmFuel w.userConfirmed w.userCanceled
            env.confirmArrivals).1 = true
        ∧ (env.safety.isRateLimitOK env.nowMs).1 = true
        ∧ bandGate
            { w with
                transmissionAttempts := (w.transmissionAttempts + 1) % 256
                userConfirmed := (confGate env.confirmFuel w.userConfirmed
                  w.userCanceled env.confirmArrivals).2.1
                userCanceled := (confGate env.confirmFuel w.userConfirmed
                  w.userCanceled env.confirmArrivals).2.2 } = true)
    ∧ (∀ (a : UserAction) (ms us : Nat),
        (applyUserAction w a ms us).currentState = .WF_TRANSMIT →
        w.currentState = .WF_TRANSMIT) := by
  refine ⟨?_, ?_, ?_⟩
  · intro hne
    cases hcs : w.currentState
    case WF_TRANSMIT => rfl
    all_goals
      (exfalso; apply hne; simp only [tick, processCurrentState, hcs])
  · intro hfin
    have h1 : ((processCurrentState w env).1).currentState = .WF_TRANSMIT := by
      have hfin' : (checkEmergencyStopStep
          (checkTimeoutStep (processCurrentState w env).1 env) env).currentState
          = .WF_TRANSMIT := hfin
      exact checkTimeoutStep_transmit _ _
        (checkEmergencyStopStep_transmit _ _ hfin')
    cases hcs : w.currentState
    case WF_IDLE =>
      simp only [processCurrentState, hcs] at h1
      exact absurd h1 (by simp)
    case WF_INIT =>
      simp only [processCurrentState, processInitState, hcs] at h1
      split at h1 <;> simp [transitionToState_currentState] at h1
    case WF_LISTENING =>
      simp only [processCurrentState, processListeningState, hcs] at h1
      split at h1
      · rw [captureSignals_currentState, hcs] at h1
        exact absurd h1 (by simp)
      · split at h1
        · simp [transitionToState_currentState] at h1
        · split at h1
          · simp [transitionToState_currentState] at h1
          · rw [captureSignals_currentState, hcs] at h1
            exact absurd h1 (by simp)
    case WF_ANALYZING =>
      simp only [processCurrentState, processAnalyzingState, hcs] at h1
      split at h1 <;> simp [transitionToState_currentState] at h1
    case WF_READY =>
      simp only [processCurrentState, processReadyState, hcs] at h1
      split at h1
      · simp [transitionToState_currentState] at h1
      · rw [hcs] at h1
        exact absurd h1 (by simp)
    case WF_TRANSMIT =>
      simp only [processCurrentState, processTransmitState, hcs] at h1
      simp [transitionToState_currentState] at h1
    case WF_CLEANUP =>
      simp only [processCurrentState, processCleanupState, hcs] at h1
      simp [transitionToState_currentState] at h1
    case WF_TX_GATED =>
      simp only [processCurrentState, processTxGatedState, hcs] at h1
      split at h1
      · simp [transitionToState_currentState] at h1
      · split at h1
        · simp [transitionToState_currentState] at h1
        · split at h1
          · simp [transitionToState_currentState] at h1
          · split at h1
            · simp [transitionToState_currentState] at h1
            · split at h1
              · simp [transitionToState_currentState] at h1
              · split at h1
                · simp [transitionToState_currentState] at h1
                · rename_i hatt hidx hpol hconf hrate hband
                  refine ⟨rfl, ?_, ?_, ?_, ?_, ?_, ?_, ?_⟩
                  · simpa using hatt
                  · simp only [Bool.or_eq_true, decide_eq_true_eq,
                      not_or] at hidx
                    omega
                  · simp only [Bool.or_eq_true, decide_eq_true_eq,
                      not_or] at hidx
                    omega
                  · simpa using hpol
                  · simpa using hconf
                  · simpa using hrate
                  · simpa using hband
  · intro a ms us hact
    cases a <;>
      simp only [applyUserAction, triggerAnalysis, selectSignalForTransmission,
        confirmTransmission, cancelTransmission, continueObservation,
        abortWorkflow, RFTestWorkflow.reset] at hact <;>
      (try split at hact) <;>
      simp_all [transitionToState_currentState, logDet_currentState]

/-- A workflow mid-run in TRANSMIT with one captured signal selected. -/
def transmitSample : RFTestWorkflow :=
  { currentState := .WF_TRANSMIT, previousState := .WF_TX_GATED,
    selectedSignalIndex := 0,
    captureBuffer :=
      [{ frequency := 43392/100, dataLength := 4,
         pulseTimes := some (List.replicate 12 350), pulseCount := 12,
         protocol := "RCSwitch-1", isValid := true }] }

/-- A tick environment with the 433 MHz radio present and reporting
emission success. -/
def envSample : TickEnv :=
  { nowMs := 0, nowUs := 0, rxSignals := [], confirmFuel := 0,
    confirmArrivals := fun _ => (false, false), safety := SafetyModule.start,
    rf433Present := true, rf24Present := false, emitOk := true }

/-- Witness for C1 at a concrete input: a TRANSMIT-state tick emits, and
the theorem recovers that the state was TRANSMIT. -/
theorem C1_transmit_gated_witness :
    (tick transmitSample envSample).2 ≠ []
    ∧ transmitSample.currentState = .WF_TRANSMIT := by
  have hne : (tick transmitSample envSample).2 ≠ [] := by decide
  exact ⟨hne, (C1_transmit_gated transmitSample envSample).1 hne⟩
